import Mathlib

/-!
Shallow embedding of the santorini-bot rules engine
(src/santorini_bot/board.py and src/santorini_bot/game.py).

Python mutable objects are modelled by value-passing: each mutator takes a
`Board` or `GameManager` and returns the updated value.  Python exceptions
are modelled with `Except` (for `Board` methods) or an `Option BoardError`
component paired with the post-call state (for `GameManager.update_game_state`,
whose in-place mutations persist when an exception propagates mid-method).
The numpy height grid `board_blocks` is modelled as a total function
`Int → Int → Int` indexed `y` then `x`; every access in the embedded code
paths is guarded in-bounds by the source, matching numpy behaviour there.
-/

namespace Santorini

/-- Enum for player colors (board.py `Color`). -/
inductive Color
  | BLUE
  | WHITE
deriving DecidableEq

instance : Inhabited Color := ⟨Color.BLUE⟩

/-- Enum for possible turn actions (board.py `TurnActions`). -/
inductive TurnActions
  | PLACE_WORKER
  | MOVE
  | BUILD
deriving DecidableEq

instance : Inhabited TurnActions := ⟨TurnActions.MOVE⟩

/-- Arguments for a place worker turn (board.py `PlaceWorkerTurn`). -/
structure PlaceWorkerTurn where
  color : Color
  x : Int
  y : Int
deriving DecidableEq

/-- Arguments for a move turn (board.py `MoveTurn`). -/
structure MoveTurn where
  color : Color
  start_x : Int
  start_y : Int
  end_x : Int
  end_y : Int
deriving DecidableEq

/-- Arguments for a build turn (board.py `BuildTurn`). -/
structure BuildTurn where
  color : Color
  worker_x : Int
  worker_y : Int
  build_x : Int
  build_y : Int
deriving DecidableEq

/-- Tagged union of turn argument records (board.py `TurnArgs`). -/
inductive TurnArgs
  | place (t : PlaceWorkerTurn)
  | move (t : MoveTurn)
  | build (t : BuildTurn)
deriving DecidableEq

/-- Worker attributes (board.py `Worker`). -/
structure Worker where
  x : Int
  y : Int
  height : Int
  color : Color
deriving DecidableEq

instance : Inhabited Worker := ⟨⟨0, 0, 0, Color.BLUE⟩⟩

/-- board.py `Worker.move`: set coordinates; update height only when given. -/
def Worker.move (w : Worker) (x y : Int) (height : Option Int) : Worker :=
  { w with x := x, y := y, height := height.getD w.height }

/-- Exceptions raised by the embedded code.  `illegalMove` models
`IllegalMoveError`, `illegalBoardState` models `IllegalBoardStateError`,
`attributeError` models a Python `AttributeError` from resolving a missing
attribute name, and `indexError` models an `IndexError` from indexing an
empty deque. -/
inductive BoardError
  | illegalMove (msg : String)
  | illegalBoardState (msg : String)
  | attributeError (missing : String)
  | indexError (msg : String)
deriving DecidableEq

/-- Santorini board state (board.py `Board.__init__`). -/
structure Board where
  length : Int
  width : Int
  max_height : Int
  max_workers_per_player : Int
  workers : List Worker
  board_blocks : Int → Int → Int

instance : Inhabited Board := ⟨⟨0, 0, 0, 0, [], fun _ _ => 0⟩⟩

/-- A fresh board: no workers, all heights zero (board.py `Board.__init__`). -/
def mkBoard (length width max_height max_workers_per_player : Int) : Board :=
  { length := length
    width := width
    max_height := max_height
    max_workers_per_player := max_workers_per_player
    workers := []
    board_blocks := fun _ _ => 0 }

/-- Pointwise update of the height grid at row `y`, column `x`. -/
def updBlocks (f : Int → Int → Int) (y x v : Int) : Int → Int → Int :=
  fun y2 x2 => if y2 = y ∧ x2 = x then v else f y2 x2

/-- The eight neighboring shifts, in source construction order:
`product([0, -1, 1], repeat=2)` with `(0, 0)` removed. -/
def neighboring_shifts : List (Int × Int) :=
  [(0, -1), (0, 1), (-1, 0), (-1, -1), (-1, 1), (1, 0), (1, -1), (1, 1)]

/-- board.py `Board._num_workers`. -/
def Board._num_workers (b : Board) (color : Color) : Nat :=
  (b.workers.filter (fun w => w.color = color)).length

/-- board.py `Board.player_can_place_workers`. -/
def Board.player_can_place_workers (b : Board) (color : Color) : Bool :=
  decide ((b._num_workers color : Int) < b.max_workers_per_player)

/-- board.py `Board._worker_on_space`. -/
def Board._worker_on_space (b : Board) (x y : Int) : Bool :=
  b.workers.any (fun w => decide (w.x = x) && decide (w.y = y))

/-- board.py `Board._is_on_board`. -/
def Board._is_on_board (b : Board) (x y : Int) : Bool :=
  decide (0 ≤ x) && decide (x < b.width) && decide (0 ≤ y) && decide (y < b.length)

/-- board.py `Board._block_height` (`board_blocks[y][x]`). -/
def Board._block_height (b : Board) (x y : Int) : Int :=
  b.board_blocks y x

/-- board.py `Board._is_neighboring_space`. -/
def Board._is_neighboring_space (b : Board) (w : Worker) (x y : Int) : Bool :=
  decide ((x - w.x, y - w.y) ∈ neighboring_shifts)

/-- board.py `Board.is_valid_move`. -/
def Board.is_valid_move (b : Board) (w : Worker) (x y : Int) : Bool :=
  b._is_on_board x y &&
    (decide (b._block_height x y ≤ w.height + 1) &&
      decide (b._block_height x y < b.max_height) &&
      !(b._worker_on_space x y) &&
      b._is_neighboring_space w x y)

/-- board.py `Board.is_valid_build`. -/
def Board.is_valid_build (b : Board) (w : Worker) (x y : Int) : Bool :=
  b._is_on_board x y &&
    (decide (b._block_height x y < b.max_height) &&
      !(b._worker_on_space x y) &&
      b._is_neighboring_space w x y)

/-- board.py `Board.is_valid_placement`. -/
def Board.is_valid_placement (b : Board) (color : Color) (x y : Int) : Bool :=
  b._is_on_board x y &&
    (b.player_can_place_workers color && !(b._worker_on_space x y))

/-- board.py `Board.place_worker`. -/
def Board.place_worker (b : Board) (color : Color) (x y : Int) :
    Except BoardError Board :=
  if !(b.player_can_place_workers color) then
    Except.error (BoardError.illegalMove "Invalid worker placement: too many workers")
  else if !(b._worker_on_space x y) then
    Except.ok { b with workers := b.workers ++ [⟨x, y, 0, color⟩] }
  else
    Except.error (BoardError.illegalMove "Invalid worker placement: worker already exists")

/-- board.py `Board._get_worker_index`: first index matching the coordinates. -/
def Board._get_worker_index (b : Board) (x y : Int) : Except BoardError Nat :=
  match b.workers.findIdx? (fun w => decide (w.x = x) && decide (w.y = y)) with
  | some i => Except.ok i
  | none => Except.error (BoardError.illegalMove "No worker at coordinates")

/-- board.py `Board._get_worker_at`: first worker matching the coordinates. -/
def Board._get_worker_at (b : Board) (x y : Int) : Except BoardError Worker :=
  match b.workers.find? (fun w => decide (w.x = x) && decide (w.y = y)) with
  | some w => Except.ok w
  | none => Except.error (BoardError.illegalMove "No worker at coordinates")

/-- board.py `Board.move`. -/
def Board.move (b : Board) (color : Color) (start_x start_y end_x end_y : Int) :
    Except BoardError Board :=
  match b._get_worker_index start_x start_y with
  | Except.error e => Except.error e
  | Except.ok worker_idx =>
    let w := b.workers.getD worker_idx default
    if w.color ≠ color then
      Except.error (BoardError.illegalMove "Invalid move: wrong color")
    else if b.is_valid_move w end_x end_y then
      Except.ok { b with
        workers := b.workers.set worker_idx
          (w.move end_x end_y (some (b._block_height end_x end_y))) }
    else
      Except.error (BoardError.illegalMove "Invalid move")

/-- board.py `Board.build`. -/
def Board.build (b : Board) (color : Color)
    (worker_x worker_y build_x build_y : Int) : Except BoardError Board :=
  match b._get_worker_at worker_x worker_y with
  | Except.error e => Except.error e
  | Except.ok w =>
    if w.color ≠ color then
      Except.error (BoardError.illegalMove "Invalid build: wrong color")
    else if b.is_valid_build w build_x build_y then
      Except.ok { b with
        board_blocks := updBlocks b.board_blocks build_y build_x
          (b.board_blocks build_y build_x + 1) }
    else
      Except.error (BoardError.illegalMove "Invalid build")

/-- board.py `Board.get_workers_with_color`. -/
def Board.get_workers_with_color (b : Board) (color : Color) : List Worker :=
  b.workers.filter (fun w => w.color = color)

/-- board.py `Board.get_valid_moves`. -/
def Board.get_valid_moves (b : Board) (w : Worker) : List MoveTurn :=
  (((neighboring_shifts.map (fun s => (w.x + s.1, w.y + s.2))).filter
      (fun xy => b.is_valid_move w xy.1 xy.2)).map
    (fun c => ⟨w.color, w.x, w.y, c.1, c.2⟩))

/-- board.py `Board.get_valid_builds`. -/
def Board.get_valid_builds (b : Board) (w : Worker) : List BuildTurn :=
  (((neighboring_shifts.map (fun s => (w.x + s.1, w.y + s.2))).filter
      (fun xy => b.is_valid_build w xy.1 xy.2)).map
    (fun c => ⟨w.color, w.x, w.y, c.1, c.2⟩))

/-- board.py `Board.player_can_move`. -/
def Board.player_can_move (b : Board) (color : Color) : Bool :=
  (b.get_workers_with_color color).any
    (fun w => decide ((b.get_valid_moves w).length ≠ 0))

/-- board.py `Board.player_can_build`. -/
def Board.player_can_build (b : Board) (color : Color) : Bool :=
  (b.get_workers_with_color color).any
    (fun w => decide ((b.get_valid_builds w).length ≠ 0))

/-- board.py `Board.player_in_win_state`. -/
def Board.player_in_win_state (b : Board) (color : Color) :
    Except BoardError Bool :=
  let workers_at_max_height :=
    (b.get_workers_with_color color).filter
      (fun w => decide (w.height = b.max_height - 1))
  if workers_at_max_height.length > 1 then
    Except.error (BoardError.illegalBoardState "Multiple workers are in a winning state")
  else
    Except.ok (decide (workers_at_max_height.length = 1))

/-- board.py `Board.player_in_lose_state_before_move`. -/
def Board.player_in_lose_state_before_move (b : Board) (color : Color) : Bool :=
  !(b.player_can_move color)

/-- board.py `Board.player_in_lose_state_after_move`. -/
def Board.player_in_lose_state_after_move (b : Board) (worker_x worker_y : Int) :
    Except BoardError Bool :=
  match b._get_worker_at worker_x worker_y with
  | Except.error e => Except.error e
  | Except.ok w => Except.ok (decide ((b.get_valid_builds w).length = 0))

/-- board.py `Board.reset`. -/
def Board.reset (b : Board) : Board :=
  { b with workers := [], board_blocks := fun _ _ => 0 }

/-- Game snapshot (game.py `GameState`). -/
structure GameState where
  active_player : Color
  board : Board
  turn_action : TurnActions
  turn : TurnArgs

/-- Turn-engine state (game.py `GameManager.__init__`).  The deques
`player_order` and `turn_order` are modelled as lists whose head is the
front of the deque; `popleft` followed by `append` is `List.rotate _ 1`. -/
structure GameManager where
  initial_board : Board
  board : Board
  initial_player_order : List Color
  player_order : List Color
  turn_order : List TurnActions
  game_state_log : List GameState

/-- game.py `GameManager.__init__` for a given player order and board. -/
def mkGameManager (player_order : List Color) (board : Board) : GameManager :=
  { initial_board := board
    board := board
    initial_player_order := player_order
    player_order := player_order
    turn_order := [TurnActions.MOVE, TurnActions.BUILD]
    game_state_log := [] }

/-- game.py `GameManager.active_player` (`player_order[0]`). -/
def GameManager.active_player (gm : GameManager) : Color :=
  gm.player_order.headI

/-- game.py `GameManager.current_turn_action`. -/
def GameManager.current_turn_action (gm : GameManager) : TurnActions :=
  if gm.player_order.any (fun c => gm.board.player_can_place_workers c) then
    TurnActions.PLACE_WORKER
  else
    gm.turn_order.headI

/-- game.py `GameManager.previous_game_state` (`game_state_log[-1]`). -/
def GameManager.previous_game_state (gm : GameManager) : Option GameState :=
  gm.game_state_log.getLast?

/-- game.py `GameManager._change_active_player` (deque popleft then append). -/
def GameManager._change_active_player (gm : GameManager) : GameManager :=
  { gm with player_order := gm.player_order.rotate 1 }

/-- game.py `GameManager._change_current_turn_action`.  When no player can
place workers the source reads `self.previous_game_state.turn_action`; a
`None` previous state there would raise `AttributeError`. -/
def GameManager._change_current_turn_action (gm : GameManager) :
    Except BoardError GameManager :=
  let no_player_can_place_workers :=
    gm.player_order.all (fun c => !(gm.board.player_can_place_workers c))
  if no_player_can_place_workers then
    match gm.previous_game_state with
    | none => Except.error (BoardError.attributeError "NoneType.turn_action")
    | some pgs =>
      if pgs.turn_action ≠ TurnActions.PLACE_WORKER then
        Except.ok { gm with turn_order := gm.turn_order.rotate 1 }
      else
        Except.ok gm
  else
    Except.ok gm

/-- game.py `GameManager._check_moved_worker_before_build`.  Returns the
raised error, if any.  When the action tag of the previous snapshot is `MOVE`
but its record is not a `MoveTurn`, the source would read `end_x` off a
record lacking it, raising `AttributeError`. -/
def GameManager._check_moved_worker_before_build (gm : GameManager)
    (build_worker_x build_worker_y : Int) : Option BoardError :=
  match gm.previous_game_state with
  | none => some (BoardError.illegalMove "Cannot build as the first turn of the game.")
  | some pgs =>
    if pgs.turn_action = TurnActions.MOVE then
      match pgs.turn with
      | TurnArgs.move previous_turn =>
        if (previous_turn.end_x, previous_turn.end_y) ≠
            (build_worker_x, build_worker_y) then
          some (BoardError.illegalMove "Must build with the last worker to move.")
        else
          none
      | _ => some (BoardError.attributeError "end_x")
    else
      some (BoardError.illegalMove "Must move before build")

/-- game.py `GameManager._check_win_state_board_win_state`: true iff a
previous snapshot exists and its board reports the active player in a win
state (which may itself raise `IllegalBoardStateError`). -/
def GameManager._check_win_state_board_win_state (gm : GameManager) :
    Except BoardError Bool :=
  match gm.previous_game_state with
  | none => Except.ok false
  | some pgs => pgs.board.player_in_win_state gm.active_player

/-- game.py `GameManager._check_loss_state_player_cant_move`.  The guard
matches the source; once it holds, the source calls
`previous_game_state.board.player_in_loss_state_before_move`, an attribute
the `Board` class does not define (board.py defines
`player_in_lose_state_before_move`), so Python raises `AttributeError`
before any player is removed. -/
def GameManager._check_loss_state_player_cant_move (gm : GameManager) :
    GameManager × Option BoardError :=
  match gm.previous_game_state with
  | none => (gm, none)
  | some _ =>
    if gm.player_order.length ≠ 1 ∧ gm.current_turn_action = TurnActions.MOVE then
      (gm, some (BoardError.attributeError "player_in_loss_state_before_move"))
    else
      (gm, none)

/-- game.py `GameManager._check_loss_state_player_cant_build`.  As above,
once the guard holds the source calls the undefined attribute
`player_in_loss_state_after_move` and raises `AttributeError`. -/
def GameManager._check_loss_state_player_cant_build (gm : GameManager) :
    GameManager × Option BoardError :=
  match gm.previous_game_state with
  | none => (gm, none)
  | some pgs =>
    if gm.player_order.length ≠ 1 ∧ pgs.turn_action = TurnActions.MOVE then
      (gm, some (BoardError.attributeError "player_in_loss_state_after_move"))
    else
      (gm, none)

/-- game.py `GameManager._check_win_state_one_player_left`. -/
def GameManager._check_win_state_one_player_left (gm : GameManager) : Bool :=
  decide (gm.player_order.length = 1)

/-- game.py `GameManager.update_game_state` lines 229-248: commit the cached
board, evaluate the win check, then rotate the player and phase orders. -/
def GameManager._update_after_commit (gm : GameManager)
    (in_loss_state_cant_build : Bool) : GameManager × Option BoardError :=
  match gm._check_win_state_board_win_state with
  | Except.error e => (gm, some e)
  | Except.ok in_win_state =>
    if in_win_state then
      (gm, none)
    else
      let gm2 :=
        match gm.previous_game_state with
        | none => gm
        | some pgs =>
          if pgs.turn_action ≠ TurnActions.MOVE ∨ in_loss_state_cant_build = true then
            gm._change_active_player
          else
            gm
      if in_loss_state_cant_build then
        (gm2, none)
      else
        match gm2._change_current_turn_action with
        | Except.error e => (gm2, some e)
        | Except.ok gm3 => (gm3, none)

/-- game.py `GameManager.update_game_state`.  Returns the state after the
call together with the raised exception, if any (Python in-place mutations
performed before a raise persist).  In the `MOVE` branch the source, after
appending the snapshot and before committing the cached board, calls
`board.player_in_loss_state_after_move` — an attribute the `Board` class
does not define (board.py names it `player_in_lose_state_after_move`) — so
every successful board move ends in an `AttributeError` with the snapshot
appended but the cached board not updated. -/
def GameManager.update_game_state (gm : GameManager) (turn_action : TurnActions)
    (turn_coordinates : List Int) (active_player : Option Color) :
    GameManager × Option BoardError :=
  if gm.player_order = [] then
    (gm, some (BoardError.indexError "deque index out of range"))
  else if (match active_player with
          | some p => decide (p ≠ gm.active_player)
          | none => false) then
    (gm, some (BoardError.illegalMove "Player turn is out of order"))
  else if turn_action ≠ gm.current_turn_action then
    (gm, some (BoardError.illegalMove "Turn action is out of order"))
  else
    let c0 := turn_coordinates.getD 0 0
    let c1 := turn_coordinates.getD 1 0
    let c2 := turn_coordinates.getD 2 0
    let c3 := turn_coordinates.getD 3 0
    match turn_action with
    | TurnActions.PLACE_WORKER =>
      match gm.board.place_worker gm.active_player c0 c1 with
      | Except.error e => (gm, some e)
      | Except.ok board2 =>
        let gm1 := { gm with
          game_state_log := gm.game_state_log ++
            [({ active_player := gm.active_player
                board := board2
                turn_action := TurnActions.PLACE_WORKER
                turn := TurnArgs.place ⟨gm.active_player, c0, c1⟩ } : GameState)]
          board := board2 }
        gm1._update_after_commit false
    | TurnActions.MOVE =>
      match gm.board.move gm.active_player c0 c1 c2 c3 with
      | Except.error e => (gm, some e)
      | Except.ok board2 =>
        let gm1 := { gm with
          game_state_log := gm.game_state_log ++
            [({ active_player := gm.active_player
                board := board2
                turn_action := TurnActions.MOVE
                turn := TurnArgs.move ⟨gm.active_player, c0, c1, c2, c3⟩ } : GameState)] }
        (gm1, some (BoardError.attributeError "player_in_loss_state_after_move"))
    | TurnActions.BUILD =>
      match gm._check_moved_worker_before_build c0 c1 with
      | some e => (gm, some e)
      | none =>
        match gm.board.build gm.active_player c0 c1 c2 c3 with
        | Except.error e => (gm, some e)
        | Except.ok board2 =>
          let gm1 := { gm with
            game_state_log := gm.game_state_log ++
              [({ active_player := gm.active_player
                  board := board2
                  turn_action := TurnActions.BUILD
                  turn := TurnArgs.build ⟨gm.active_player, c0, c1, c2, c3⟩ } : GameState)]
            board := board2 }
          gm1._update_after_commit false

/-- One Board mutator invocation, for stating sequence-level invariants
over board.py operations. -/
inductive BoardOp
  | place (c : Color) (x y : Int)
  | move (c : Color) (sx sy ex ey : Int)
  | build (c : Color) (wx wy bx bcy : Int)
  | reset
deriving DecidableEq

/-- Dispatch one `BoardOp` to the corresponding board.py mutator. -/
def applyOp (b : Board) : BoardOp → Except BoardError Board
  | BoardOp.place c x y => b.place_worker c x y
  | BoardOp.move c sx sy ex ey => b.move c sx sy ex ey
  | BoardOp.build c wx wy bx bcy => b.build c wx wy bx bcy
  | BoardOp.reset => Except.ok b.reset

/-- Run a sequence of board operations, stopping at the first failure. -/
def runOps (b : Board) : List BoardOp → Except BoardError Board
  | [] => Except.ok b
  | op :: rest =>
    match applyOp b op with
    | Except.ok b2 => runOps b2 rest
    | Except.error e => Except.error e

/-- Checks that every placement in the sequence, evaluated at its step,
targets a cell of current building height 0. -/
def placesAtZero (b : Board) : List BoardOp → Bool
  | [] => true
  | op :: rest =>
    (match op with
     | BoardOp.place _ x y => decide (b._block_height x y = 0)
     | _ => true) &&
    (match applyOp b op with
     | Except.ok b2 => placesAtZero b2 rest
     | Except.error _ => true)

/-- Every worker has recorded height equal to the building height of its cell. -/
def heights_synced (b : Board) : Prop :=
  ∀ w ∈ b.workers, w.height = b._block_height w.x w.y

/-! Concrete boards and game states used to evaluate the embedding. -/

/-- A 3x3 board with max height 2 and one worker per player (the
sequence-test configuration of the spec). -/
def demo_board3 : Board := mkBoard 3 3 2 1

/-- Fresh game manager over `demo_board3` with player order BLUE, WHITE. -/
def demo_gm0 : GameManager := mkGameManager [Color.BLUE, Color.WHITE] demo_board3

/-- State after placing BLUE at (0, 0). -/
def demo_gm1 : GameManager :=
  (demo_gm0.update_game_state TurnActions.PLACE_WORKER [0, 0] none).1

/-- State after additionally placing WHITE at (1, 1). -/
def demo_gm2 : GameManager :=
  (demo_gm1.update_game_state TurnActions.PLACE_WORKER [1, 1] none).1

/-- Board sequence exercising placement onto a built cell: place BLUE at
(0, 0), build with it at (1, 0), then place a second BLUE worker at (1, 0). -/
def demo9_b1 : Except BoardError Board := (mkBoard 5 5 4 2).place_worker Color.BLUE 0 0

/-- Second step of the `demo9` sequence. -/
def demo9_b2 : Except BoardError Board :=
  match demo9_b1 with
  | Except.ok b => b.build Color.BLUE 0 0 1 0
  | Except.error e => Except.error e

/-- Third step of the `demo9` sequence. -/
def demo9_b3 : Except BoardError Board :=
  match demo9_b2 with
  | Except.ok b => b.place_worker Color.BLUE 1 0
  | Except.error e => Except.error e

/-- A 3x3, max-height-2 board on which BLUE at (0, 0) is walled in by
height-2 towers and WHITE sits at (2, 2). -/
def demo5_board : Board :=
  { length := 3
    width := 3
    max_height := 2
    max_workers_per_player := 1
    workers := [⟨0, 0, 0, Color.BLUE⟩, ⟨2, 2, 0, Color.WHITE⟩]
    board_blocks := fun y x =>
      if (y = 0 ∧ x = 1) ∨ (y = 1 ∧ x = 0) ∨ (y = 1 ∧ x = 1) then 2 else 0 }

/-- A mid-game state over `demo5_board`: two players in rotation, required
phase MOVE, previous snapshot a WHITE build. -/
def demo5_gm : GameManager :=
  { initial_board := demo5_board
    board := demo5_board
    initial_player_order := [Color.BLUE, Color.WHITE]
    player_order := [Color.BLUE, Color.WHITE]
    turn_order := [TurnActions.MOVE, TurnActions.BUILD]
    game_state_log :=
      [⟨Color.WHITE, demo5_board, TurnActions.BUILD,
        TurnArgs.build ⟨Color.WHITE, 2, 2, 1, 2⟩⟩] }

/-- Empty 3x3 board (max height 4) with one BLUE worker in the center. -/
def demo7_b : Board := { mkBoard 3 3 4 2 with workers := [⟨1, 1, 0, Color.BLUE⟩] }

/-- The center worker of `demo7_b`. -/
def demo7_w : Worker := ⟨1, 1, 0, Color.BLUE⟩

/-- A 5x5 board with a BLUE worker at (0, 0) and a height-1 block at (1, 0). -/
def demo8_b : Board :=
  { mkBoard 5 5 4 2 with
    workers := [⟨0, 0, 0, Color.BLUE⟩]
    board_blocks := fun y x => if y = 0 ∧ x = 1 then 1 else 0 }

/-- Result of moving the `demo8_b` worker onto the height-1 block. -/
def demo8_b2 : Board :=
  match demo8_b.move Color.BLUE 0 0 1 0 with
  | Except.ok b => b
  | Except.error _ => default

/-- Board with one BLUE worker at winning height (max height 2) and one
WHITE worker at height 0. -/
def demo6_b : Board :=
  { mkBoard 3 3 2 2 with workers := [⟨0, 0, 1, Color.BLUE⟩, ⟨2, 2, 0, Color.WHITE⟩] }

/-- Fresh 5x5 board used for the placement claims. -/
def demo10_b : Board := mkBoard 5 5 4 2

/-- A short operation sequence: place BLUE at (0, 0), then move it to (1, 1). -/
def demo9_ops : List BoardOp :=
  [BoardOp.place Color.BLUE 0 0, BoardOp.move Color.BLUE 0 0 1 1]

/-! Claim theorems. -/

/-- Claim C1: in the 3x3, max-height-2, one-worker-per-player game, after
placing BLUE at (0, 0) and WHITE at (1, 1) the required phase is MOVE and
the active player is BLUE, and the move BLUE (0, 0) to (1, 0) is spatially
legal; but `update_game_state` does not complete it — the source calls the
undefined attribute `player_in_loss_state_after_move` (board.py defines
`player_in_lose_state_after_move`), so the call raises `AttributeError`
instead of succeeding, with the snapshot appended and the cached board not
updated.  This evaluates the code at the failing input of the claim. -/
theorem C1_move_raises_attribute_error :
    (demo_gm0.update_game_state TurnActions.PLACE_WORKER [0, 0] none).2 = none ∧
    (demo_gm1.update_game_state TurnActions.PLACE_WORKER [1, 1] none).2 = none ∧
    demo_gm2.current_turn_action = TurnActions.MOVE ∧
    demo_gm2.active_player = Color.BLUE ∧
    demo_gm2.board.is_valid_move ⟨0, 0, 0, Color.BLUE⟩ 1 0 = true ∧
    (demo_gm2.update_game_state TurnActions.MOVE [0, 0, 1, 0] none).2 =
      some (BoardError.attributeError "player_in_loss_state_after_move") := by
  decide

/-- Claim C2: the claimed all-or-nothing behaviour of `update_game_state`
fails on the code.  On a legal MOVE the call raises (AttributeError from the
missing `player_in_loss_state_after_move`) yet the game state log has grown
by one snapshot — whose board records the move — while the cached current
board still holds the pre-move workers: a partially applied action.  This
evaluates the code at the failing input. -/
theorem C2_partial_commit_on_move :
    ((demo_gm2.update_game_state TurnActions.MOVE [0, 0, 1, 0] none).2).isSome = true ∧
    (demo_gm2.update_game_state TurnActions.MOVE [0, 0, 1, 0] none).1.game_state_log.length =
      demo_gm2.game_state_log.length + 1 ∧
    (demo_gm2.update_game_state TurnActions.MOVE [0, 0, 1, 0] none).1.board.workers =
      [⟨0, 0, 0, Color.BLUE⟩, ⟨1, 1, 0, Color.WHITE⟩] ∧
    ((demo_gm2.update_game_state TurnActions.MOVE [0, 0, 1, 0] none).1.game_state_log.getLast?).map
        (fun gs => gs.board.workers) =
      some [⟨1, 0, 0, Color.BLUE⟩, ⟨1, 1, 0, Color.WHITE⟩] := by
  decide

/-- Claim C5: evaluation at a state where elimination-by-move should fire:
two players remain, required phase is MOVE, a previous snapshot exists, and
the active player BLUE has no valid move (the board predicate
`player_in_lose_state_before_move` confirms it).  The source method
`_check_loss_state_player_cant_move` nevertheless removes nobody and raises
`AttributeError`, because it calls the undefined attribute
`player_in_loss_state_before_move`.  The last conjunct checks the
one-player-left win report does hold. -/
theorem C5_elimination_check_raises :
    demo5_gm.previous_game_state.isSome = true ∧
    demo5_gm.player_order.length = 2 ∧
    demo5_gm.current_turn_action = TurnActions.MOVE ∧
    demo5_board.player_in_lose_state_before_move Color.BLUE = true ∧
    (demo5_gm._check_loss_state_player_cant_move).2 =
      some (BoardError.attributeError "player_in_loss_state_before_move") ∧
    (demo5_gm._check_loss_state_player_cant_move).1.player_order =
      [Color.BLUE, Color.WHITE] ∧
    GameManager._check_win_state_one_player_left
      { demo5_gm with player_order := [Color.WHITE] } = true := by
  decide

/-- Claim C9 counterexample: a sequence of successful Board operations from
a fresh board — place BLUE (0, 0), build at (1, 0), place BLUE (1, 0) —
ends in a state where some worker has recorded height different from the
building height of its cell: the second placement lands at height 0 on a
height-1 cell. -/
theorem C9_counterexample_place_on_built_cell :
    demo9_b3.map
        (fun b => decide (∀ w ∈ b.workers, w.height = b._block_height w.x w.y)) =
      Except.ok false := by
  rfl

/-- Claim C10: `place_worker` performs no bounds check — for any player
under the worker cap and any coordinates free of workers, placement
succeeds and appends a worker at those coordinates with height 0, even
out of the grid; while `is_valid_placement` is false at any out-of-bounds
coordinates. -/
theorem C10_place_worker_no_bounds_check (b : Board) (c : Color) (x y : Int)
    (hcap : (b._num_workers c : Int) < b.max_workers_per_player)
    (hfree : b._worker_on_space x y = false) :
    b.place_worker c x y =
      Except.ok { b with workers := b.workers ++ [⟨x, y, 0, c⟩] } ∧
    (b._is_on_board x y = false → b.is_valid_placement c x y = false) := by
  constructor
  · simp [Board.place_worker, Board.player_can_place_workers, hcap, hfree]
  · intro hob
    simp [Board.is_valid_placement, hob]

/-- Witness for C10 at a concrete input: placing on a fresh 5x5 board at
the out-of-bounds coordinates (9, 9) succeeds while `is_valid_placement`
rejects them. -/
theorem C10_witness :
    demo10_b.place_worker Color.BLUE 9 9 =
      Except.ok { demo10_b with workers := demo10_b.workers ++ [⟨9, 9, 0, Color.BLUE⟩] } ∧
    (demo10_b._is_on_board 9 9 = false →
      demo10_b.is_valid_placement Color.BLUE 9 9 = false) :=
  C10_place_worker_no_bounds_check demo10_b Color.BLUE 9 9 (by decide) (by decide)

/-- Claim C6: `player_in_win_state` returns true iff exactly one of the
workers of the player records height max_height - 1, returns false when none
does, and raises `IllegalBoardStateError` when more than one does. -/
theorem C6_player_in_win_state_spec (b : Board) (c : Color) :
    (b.player_in_win_state c = Except.ok true ↔
      ((b.get_workers_with_color c).filter
        (fun w => decide (w.height = b.max_height - 1))).length = 1) ∧
    (((b.get_workers_with_color c).filter
        (fun w => decide (w.height = b.max_height - 1))).length = 0 →
      b.player_in_win_state c = Except.ok false) ∧
    (1 < ((b.get_workers_with_color c).filter
        (fun w => decide (w.height = b.max_height - 1))).length →
      b.player_in_win_state c =
        Except.error
          (BoardError.illegalBoardState "Multiple workers are in a winning state")) := by
  refine ⟨⟨fun h => ?_, fun h => ?_⟩, fun h => ?_, fun h => ?_⟩
  · by_cases hgt :
      ((b.get_workers_with_color c).filter
        (fun w => decide (w.height = b.max_height - 1))).length > 1
    · simp [Board.player_in_win_state, hgt] at h
    · simp [Board.player_in_win_state, hgt] at h
      exact h
  · simp [Board.player_in_win_state, h]
  · simp [Board.player_in_win_state, h]
  · simp [Board.player_in_win_state, h]

/-- Witness for C6 at a concrete input: on `demo6_b` (max height 2), BLUE
has exactly one worker at height 1, so `player_in_win_state` returns true. -/
theorem C6_witness : demo6_b.player_in_win_state Color.BLUE = Except.ok true :=
  (C6_player_in_win_state_spec demo6_b Color.BLUE).1.mpr (by decide)

/-- Claim C4: with the phase rotation being one of the two rotations of
the MOVE/BUILD pair, the required phase is PLACE_WORKER exactly when some
player in the current rotation has fewer workers than the per-player cap,
and otherwise equals the head of the phase rotation.  The required phase
is a pure function of the current state, recomputed on each query. -/
theorem C4_phase_resolution (gm : GameManager)
    (hto : gm.turn_order = [TurnActions.MOVE, TurnActions.BUILD] ∨
      gm.turn_order = [TurnActions.BUILD, TurnActions.MOVE]) :
    (gm.current_turn_action = TurnActions.PLACE_WORKER ↔
      ∃ c ∈ gm.player_order,
        (gm.board._num_workers c : Int) < gm.board.max_workers_per_player) ∧
    ((¬ ∃ c ∈ gm.player_order,
        (gm.board._num_workers c : Int) < gm.board.max_workers_per_player) →
      gm.current_turn_action = gm.turn_order.headI) := by
  have hhead : gm.turn_order.headI ≠ TurnActions.PLACE_WORKER := by
    rcases hto with h | h <;> simp [h]
  have hany :
      (gm.player_order.any (fun c => gm.board.player_can_place_workers c) = true) ↔
      ∃ c ∈ gm.player_order,
        (gm.board._num_workers c : Int) < gm.board.max_workers_per_player := by
    simp [List.any_eq_true, Board.player_can_place_workers]
  constructor
  · rw [← hany]
    unfold GameManager.current_turn_action
    by_cases h : gm.player_order.any (fun c => gm.board.player_can_place_workers c) = true
    · simp [h]
    · simp [h, hhead]
  · intro hno
    rw [← hany] at hno
    unfold GameManager.current_turn_action
    simp [hno]

/-- Witness for C4 at a concrete input: in the fresh sequence-test game
both players can still place, so the required phase is PLACE_WORKER. -/
theorem C4_witness :
    (demo_gm0.current_turn_action = TurnActions.PLACE_WORKER ↔
      ∃ c ∈ demo_gm0.player_order,
        (demo_gm0.board._num_workers c : Int) < demo_gm0.board.max_workers_per_player) ∧
    ((¬ ∃ c ∈ demo_gm0.player_order,
        (demo_gm0.board._num_workers c : Int) < demo_gm0.board.max_workers_per_player) →
      demo_gm0.current_turn_action = demo_gm0.turn_order.headI) :=
  C4_phase_resolution demo_gm0 (Or.inl rfl)

/-- Claim C7: every target returned by `get_valid_moves` is on the board,
unoccupied, one of the eight neighbors of the cell of the worker, of height
strictly below max_height, and at most one above the height of the worker; and
every target returned by `get_valid_builds` satisfies the same conditions
except the height-difference bound. -/
theorem C7_valid_targets (b : Board) (w : Worker) :
    (∀ mt ∈ b.get_valid_moves w,
      b._is_on_board mt.end_x mt.end_y = true ∧
      b._worker_on_space mt.end_x mt.end_y = false ∧
      b._is_neighboring_space w mt.end_x mt.end_y = true ∧
      b._block_height mt.end_x mt.end_y < b.max_height ∧
      b._block_height mt.end_x mt.end_y ≤ w.height + 1) ∧
    (∀ bt ∈ b.get_valid_builds w,
      b._is_on_board bt.build_x bt.build_y = true ∧
      b._worker_on_space bt.build_x bt.build_y = false ∧
      b._is_neighboring_space w bt.build_x bt.build_y = true ∧
      b._block_height bt.build_x bt.build_y < b.max_height) := by
  constructor
  · intro mt hmt
    simp only [Board.get_valid_moves, List.mem_map, List.mem_filter] at hmt
    obtain ⟨⟨ex, ey⟩, ⟨_, hvalid⟩, rfl⟩ := hmt
    simp only [Board.is_valid_move, Bool.and_eq_true, Bool.not_eq_true',
      decide_eq_true_eq] at hvalid
    dsimp only
    exact ⟨by tauto, by tauto, by tauto, by tauto, by tauto⟩
  · intro bt hbt
    simp only [Board.get_valid_builds, List.mem_map, List.mem_filter] at hbt
    obtain ⟨⟨bx, bcy⟩, ⟨_, hvalid⟩, rfl⟩ := hbt
    simp only [Board.is_valid_build, Bool.and_eq_true, Bool.not_eq_true',
      decide_eq_true_eq] at hvalid
    dsimp only
    exact ⟨by tauto, by tauto, by tauto, by tauto⟩

/-- Witness for C7 at a concrete input: the corner target (0, 0) of the
center worker on `demo7_b`. -/
theorem C7_witness :
    demo7_b._is_on_board 0 0 = true ∧
    demo7_b._worker_on_space 0 0 = false ∧
    demo7_b._is_neighboring_space demo7_w 0 0 = true ∧
    demo7_b._block_height 0 0 < demo7_b.max_height ∧
    demo7_b._block_height 0 0 ≤ demo7_w.height + 1 :=
  (C7_valid_targets demo7_b demo7_w).1 ⟨Color.BLUE, 1, 1, 0, 0⟩ (by decide)

/-- Claim C8: whenever `Board.move` succeeds, the height grid is unchanged
and the moved worker (the one written at the located index) records exactly
the height the destination cell had before the move. -/
theorem C8_move_height_sync (b : Board) (c : Color) (sx sy ex ey : Int)
    (b2 : Board) (h : b.move c sx sy ex ey = Except.ok b2) :
    b2.board_blocks = b.board_blocks ∧
    ∃ idx, b._get_worker_index sx sy = Except.ok idx ∧
      b2.workers = b.workers.set idx
        ((b.workers.getD idx default).move ex ey (some (b._block_height ex ey))) ∧
      ((b.workers.getD idx default).move ex ey
        (some (b._block_height ex ey))).height = b._block_height ex ey := by
  unfold Board.move at h
  split at h
  · simp at h
  · rename_i idx heq
    dsimp only at h
    split at h
    · simp at h
    · split at h
      · cases h
        exact ⟨rfl, idx, heq, rfl, by simp [Worker.move]⟩
      · simp at h

/-- Witness for C8 at a concrete input: moving the `demo8_b` worker from
(0, 0) onto the height-1 cell (1, 0). -/
theorem C8_witness :
    demo8_b.move Color.BLUE 0 0 1 0 = Except.ok demo8_b2 ∧
    (demo8_b2.board_blocks = demo8_b.board_blocks ∧
      ∃ idx, demo8_b._get_worker_index 0 0 = Except.ok idx ∧
        demo8_b2.workers = demo8_b.workers.set idx
          ((demo8_b.workers.getD idx default).move 1 0
            (some (demo8_b._block_height 1 0))) ∧
        ((demo8_b.workers.getD idx default).move 1 0
          (some (demo8_b._block_height 1 0))).height = demo8_b._block_height 1 0) :=
  ⟨rfl, C8_move_height_sync demo8_b Color.BLUE 0 0 1 0 demo8_b2 rfl⟩

/-- Claim C3: whenever the game state log is empty, or the most recent
logged action is not a MOVE, or the worker position given for the build
differs from the destination of the most recent logged MOVE, applying a
BUILD raises an `IllegalMoveError` and leaves the manager unchanged; in
particular a BUILD can never succeed as the first action of a game. -/
theorem C3_build_fails_without_matching_move (gm : GameManager) (tc : List Int)
    (ap : Option Color) (hne : gm.player_order ≠ [])
    (hcond :
      gm.game_state_log = [] ∨
      (∃ gs, gm.previous_game_state = some gs ∧
        gs.turn_action ≠ TurnActions.MOVE) ∨
      (∃ gs mt, gm.previous_game_state = some gs ∧
        gs.turn_action = TurnActions.MOVE ∧ gs.turn = TurnArgs.move mt ∧
        (mt.end_x ≠ tc.getD 0 0 ∨ mt.end_y ≠ tc.getD 1 0))) :
    (gm.update_game_state TurnActions.BUILD tc ap).1 = gm ∧
    ∃ s, (gm.update_game_state TurnActions.BUILD tc ap).2 =
      some (BoardError.illegalMove s) := by
  have hcheck : ∃ s,
      gm._check_moved_worker_before_build (tc.getD 0 0) (tc.getD 1 0) =
        some (BoardError.illegalMove s) := by
    unfold GameManager._check_moved_worker_before_build
    rcases hcond with hlog | ⟨gs, hpgs, hta⟩ | ⟨gs, mt, hpgs, hta, hturn, hxy⟩
    · have hnone : gm.previous_game_state = none := by
        simp [GameManager.previous_game_state, hlog]
      rw [hnone]
      exact ⟨_, rfl⟩
    · rw [hpgs]
      dsimp only
      rw [if_neg hta]
      exact ⟨_, rfl⟩
    · rw [hpgs]
      dsimp only
      rw [if_pos hta, hturn]
      have hne2 : (mt.end_x, mt.end_y) ≠ (tc.getD 0 0, tc.getD 1 0) := by
        simp only [ne_eq, Prod.mk.injEq, not_and_or]
        tauto
      dsimp only
      rw [if_pos hne2]
      exact ⟨_, rfl⟩
  obtain ⟨s, hs⟩ := hcheck
  unfold GameManager.update_game_state
  rw [if_neg hne]
  by_cases hpm : (match ap with
    | some p => decide (p ≠ gm.active_player)
    | none => false) = true
  · rw [if_pos hpm]
    exact ⟨rfl, _, rfl⟩
  · rw [if_neg hpm]
    by_cases hta : TurnActions.BUILD ≠ gm.current_turn_action
    · rw [if_pos hta]
      exact ⟨rfl, _, rfl⟩
    · rw [if_neg hta]
      dsimp only
      rw [hs]
      exact ⟨rfl, s, rfl⟩

/-- Witness for C3 at a concrete input: on the fresh sequence-test game
(empty log), a BUILD attempt is rejected and changes nothing. -/
theorem C3_witness :
    (demo_gm0.update_game_state TurnActions.BUILD [0, 0, 1, 1] none).1 = demo_gm0 ∧
    ∃ s, (demo_gm0.update_game_state TurnActions.BUILD [0, 0, 1, 1] none).2 =
      some (BoardError.illegalMove s) :=
  C3_build_fails_without_matching_move demo_gm0 [0, 0, 1, 1] none
    (by decide) (Or.inl rfl)

/-- Height synchronization is preserved by a successful placement onto a
cell whose current building height is 0. -/
theorem heights_synced_place (b b2 : Board) (c : Color) (x y : Int)
    (h0 : heights_synced b) (hz : b._block_height x y = 0)
    (h : b.place_worker c x y = Except.ok b2) : heights_synced b2 := by
  unfold Board.place_worker at h
  split at h
  · simp at h
  · split at h
    · cases h
      intro w hw
      rcases List.mem_append.mp hw with hmem | hmem
      · exact h0 w hmem
      · simp only [List.mem_singleton] at hmem
        subst hmem
        simpa [Board._block_height] using hz.symm
    · simp at h

/-- Height synchronization is preserved by every successful move. -/
theorem heights_synced_move (b b2 : Board) (c : Color) (sx sy ex ey : Int)
    (h0 : heights_synced b) (h : b.move c sx sy ex ey = Except.ok b2) :
    heights_synced b2 := by
  unfold Board.move at h
  split at h
  · simp at h
  · dsimp only at h
    split at h
    · simp at h
    · split at h
      · cases h
        intro w hw
        rcases List.mem_or_eq_of_mem_set hw with hmem | hmem
        · exact h0 w hmem
        · subst hmem
          simp [Worker.move, Board._block_height]
      · simp at h

/-- Height synchronization is preserved by every successful build: the
built cell is unoccupied, so no occupied cell changes height. -/
theorem heights_synced_build (b b2 : Board) (c : Color) (wx wy bx bcy : Int)
    (h0 : heights_synced b) (h : b.build c wx wy bx bcy = Except.ok b2) :
    heights_synced b2 := by
  unfold Board.build at h
  split at h
  · simp at h
  · split at h
    · simp at h
    · rename_i hvalid
      split at h
      · rename_i hvalid2
        cases h
        intro wk hwk
        have hsync := h0 wk hwk
        have hocc : b._worker_on_space bx bcy = false := by
          simp only [Board.is_valid_build, Bool.and_eq_true, Bool.not_eq_true'] at hvalid2
          tauto
        have hne : ¬(wk.y = bcy ∧ wk.x = bx) := by
          rintro ⟨h1, h2⟩
          have htrue : b._worker_on_space bx bcy = true := by
            simp only [Board._worker_on_space, List.any_eq_true]
            exact ⟨wk, hwk, by simp [h1, h2]⟩
          rw [hocc] at htrue
          exact Bool.false_ne_true htrue
        simpa [Board._block_height, updBlocks, hne] using hsync
      · simp at h

/-- Height synchronization is preserved by `reset`. -/
theorem heights_synced_reset (b : Board) : heights_synced b.reset := by
  intro w hw
  simp [Board.reset] at hw

/-- Height synchronization is preserved along any successful operation
sequence whose placements all target height-0 cells. -/
theorem runOps_synced (ops : List BoardOp) : ∀ b bf : Board, heights_synced b →
    placesAtZero b ops = true → runOps b ops = Except.ok bf →
    heights_synced bf := by
  induction ops with
  | nil =>
    intro b bf h0 _ hr
    unfold runOps at hr
    cases hr
    exact h0
  | cons op rest ih =>
    intro b bf h0 hp hr
    unfold runOps at hr
    unfold placesAtZero at hp
    cases hop : applyOp b op with
    | error e =>
      rw [hop] at hr
      simp at hr
    | ok b2 =>
      rw [hop] at hr hp
      rw [Bool.and_eq_true] at hp
      have h2 : heights_synced b2 := by
        cases op with
        | place c x y =>
          have hz : b._block_height x y = 0 := by
            have hg := hp.1
            simpa using hg
          exact heights_synced_place b b2 c x y h0 hz (by simpa [applyOp] using hop)
        | move c sx sy ex ey =>
          exact heights_synced_move b b2 c sx sy ex ey h0 (by simpa [applyOp] using hop)
        | build c wx wy bx bcy =>
          exact heights_synced_build b b2 c wx wy bx bcy h0 (by simpa [applyOp] using hop)
        | reset =>
          have hb2 : b2 = b.reset := by
            simp only [applyOp] at hop
            exact (Except.ok.injEq _ _).mp hop.symm
          rw [hb2]
          exact heights_synced_reset b
      exact ih b2 bf h2 hp.2 hr

/-- Claim C9 (amended): after every sequence of successful Board
operations (place_worker, move, build, reset) starting from a fresh board
in which every placement targets a cell of current building height 0,
every worker records a height equal to the current building height of the
cell it occupies.  (The unamended claim fails when a worker is placed on
an already-built cell; see the counterexample.) -/
theorem C9_amended_heights_synced (l w mh k : Int) (ops : List BoardOp)
    (bf : Board) (hplaces : placesAtZero (mkBoard l w mh k) ops = true)
    (hrun : runOps (mkBoard l w mh k) ops = Except.ok bf) :
    heights_synced bf :=
  runOps_synced ops (mkBoard l w mh k) bf
    (by intro wk hwk; simp [mkBoard] at hwk) hplaces hrun

/-- Witness for the amended C9 at a concrete sequence: place BLUE at
(0, 0) then move it to (1, 1) on a fresh 5x5 board. -/
theorem C9_amended_witness :
    placesAtZero (mkBoard 5 5 4 2) demo9_ops = true ∧
    ∃ bf, runOps (mkBoard 5 5 4 2) demo9_ops = Except.ok bf ∧
      heights_synced bf :=
  ⟨by decide, _, rfl,
    C9_amended_heights_synced 5 5 4 2 demo9_ops _ (by decide) rfl⟩

end Santorini
